import Mathlib

/-!
Verification development for the zakip-voice backend's operation-lifecycle
and audio-capture core (src-tauri/src/commands.rs and
src-tauri/src/audio/recorder.rs).

The stateful Rust code is shallowly embedded: the process-wide operation
registry (`HashMap<String, Arc<AtomicBool>>` behind an `RwLock`) becomes an
association list from operation identifier to the current value of its abort
flag; asynchronous races (`tokio::select!`) become an explicit outcome
parameter naming which branch resolved first; event emission to the UI
becomes an accumulated list of events.  Audio samples (`f32`) are modelled as
rationals, which is exact for the dyadic sample values the spec's examples
use.  I/O side effects that no claim touches (`eprintln!` logging, the
level-meter `app.emit` inside the capture callback, the hound WAV container
bytes around the 16-bit samples) are not modelled.
-/

/-- The operation registry: `active_operations` in `AppState`
(commands.rs line 18), a map from operation identifier to abort flag.
Each entry records the current Boolean value of the `Arc<AtomicBool>`
stored under that identifier. -/
abbrev Registry := List (String × Bool)

/-- Lookup of the flag stored under `k` (`HashMap::get`). -/
def Registry.getR (r : Registry) (k : String) : Option Bool :=
  (List.find? (fun p => p.1 == k) r).map Prod.snd

/-- Insertion of a flag under `k` (`HashMap::insert`): last writer wins, so
any previous entry for `k` is replaced. -/
def Registry.insertR (r : Registry) (k : String) (v : Bool) : Registry :=
  (k, v) :: List.filter (fun p => p.1 != k) r

/-- Removal of the entry under `k` (`HashMap::remove`). -/
def Registry.removeR (r : Registry) (k : String) : Registry :=
  List.filter (fun p => p.1 != k) r

/-- Setting the abort flag stored under `k` to `true`
(`abort_flag.store(true, Ordering::Relaxed)` through the registry's `Arc`).
Identifiers other than `k` are untouched; if `k` is absent nothing changes. -/
def Registry.setFlagR (r : Registry) (k : String) : Registry :=
  List.map (fun p => if p.1 == k then (p.1, true) else p) r

/-- Which of the three `tokio::select!` branches of `with_abort_and_timeout`
(commands.rs lines 40-55) resolves first: the wrapped operation with its own
result, the timeout timer, or the abort-flag polling loop. -/
inductive RaceOutcome (T : Type) where
  | work : Except String T → RaceOutcome T
  | timedOut : RaceOutcome T
  | aborted : RaceOutcome T

/-- Embedding of `with_abort_and_timeout` (commands.rs lines 22-64): register
a fresh unsignaled abort flag under `operation_id`, race the operation
against the timeout and the abort poll (the winner is given by `outcome`),
then unconditionally remove the registry entry and return the result. -/
def with_abort_and_timeout {T : Type} (operations : Registry)
    (operation_id : String) (timeout_message : String)
    (outcome : RaceOutcome T) : Except String T × Registry :=
  let ops1 := Registry.insertR operations operation_id false
  let result : Except String T :=
    match outcome with
    | RaceOutcome.work r => r
    | RaceOutcome.timedOut => Except.error timeout_message
    | RaceOutcome.aborted => Except.error "Operation aborted by user"
  (result, Registry.removeR ops1 operation_id)

/-- Embedding of the `abort_operation` command (commands.rs lines 319-333):
look the identifier up; if present store `true` into its flag, if absent do
nothing; return `Ok(())` either way. -/
def abort_operation (operations : Registry) (operation_id : String) :
    Except String Unit × Registry :=
  match Registry.getR operations operation_id with
  | some _ => (Except.ok (), Registry.setFlagR operations operation_id)
  | none => (Except.ok (), operations)

theorem Registry.getR_insertR_self (r : Registry) (k : String) (v : Bool) :
    Registry.getR (Registry.insertR r k v) k = some v := by
  simp [Registry.getR, Registry.insertR, List.find?]

theorem Registry.getR_removeR_self (r : Registry) (k : String) :
    Registry.getR (Registry.removeR r k) k = none := by
  induction r with
  | nil => rfl
  | cons p ps ih =>
    by_cases h : p.1 = k
    · have hb : (p.1 != k) = false := by simp [bne, h]
      simp only [Registry.removeR, List.filter_cons, hb, Bool.false_eq_true,
        if_false] at ih ⊢
      exact ih
    · have hb : (p.1 != k) = true := by simp [bne, h]
      have hb2 : (p.1 == k) = false := by simpa using h
      simp only [Registry.getR, Registry.removeR, List.filter_cons, hb,
        if_true, List.find?, hb2] at ih ⊢
      exact ih

theorem Registry.setFlagR_cons_pos (p : String × Bool) (ps : Registry)
    (k : String) (hb : (p.1 == k) = true) :
    Registry.setFlagR (p :: ps) k = (p.1, true) :: Registry.setFlagR ps k := by
  show List.map _ (p :: ps) = _
  rw [List.map_cons, if_pos hb]
  rfl

theorem Registry.setFlagR_cons_neg (p : String × Bool) (ps : Registry)
    (k : String) (hb : (p.1 == k) = false) :
    Registry.setFlagR (p :: ps) k = p :: Registry.setFlagR ps k := by
  show List.map _ (p :: ps) = _
  rw [List.map_cons, if_neg (by simp [hb])]
  rfl

theorem Registry.getR_setFlagR (r : Registry) (k : String) :
    Registry.getR (Registry.setFlagR r k) k = (Registry.getR r k).map (fun _ => true) := by
  induction r with
  | nil => rfl
  | cons p ps ih =>
    by_cases h : p.1 = k
    · simp [Registry.getR, Registry.setFlagR, List.find?, h]
    · have hb : (p.1 == k) = false := by simpa using h
      simpa [Registry.getR, Registry.setFlagR, List.find?, hb] using ih

theorem Registry.setFlagR_absent (r : Registry) (k : String)
    (h : Registry.getR r k = none) : Registry.setFlagR r k = r := by
  induction r with
  | nil => rfl
  | cons p ps ih =>
    by_cases hk : p.1 = k
    · simp [Registry.getR, List.find?, hk] at h
    · have hb : (p.1 == k) = false := by simpa using hk
      have h' : Registry.getR ps k = none := by
        simpa [Registry.getR, List.find?, hb] using h
      rw [Registry.setFlagR_cons_neg p ps k hb, ih h']

theorem Registry.setFlagR_idem (r : Registry) (k : String) :
    Registry.setFlagR (Registry.setFlagR r k) k = Registry.setFlagR r k := by
  induction r with
  | nil => rfl
  | cons p ps ih =>
    by_cases h : p.1 = k
    · have hb : (p.1 == k) = true := by simpa using h
      rw [Registry.setFlagR_cons_pos p ps k hb,
        Registry.setFlagR_cons_pos (p.1, true) (Registry.setFlagR ps k) k hb,
        ih]
    · have hb : (p.1 == k) = false := by simpa using h
      rw [Registry.setFlagR_cons_neg p ps k hb,
        Registry.setFlagR_cons_neg p (Registry.setFlagR ps k) k hb, ih]

/-- C1: `with_abort_and_timeout` inserts a fresh unsignaled (`false`) abort
flag under `operation_id` into the registry before the work is awaited, and
on each of the three race outcomes (work resolved, timer elapsed, abort flag
observed) the registry returned by the invocation no longer contains an
entry for `operation_id`. -/
theorem c1_register_fresh_then_always_unregister {T : Type}
    (operations : Registry) (operation_id timeout_message : String)
    (outcome : RaceOutcome T) :
    Registry.getR (Registry.insertR operations operation_id false) operation_id
        = some false
    ∧ Registry.getR
        (with_abort_and_timeout operations operation_id timeout_message outcome).2
        operation_id = none := by
  constructor
  · exact Registry.getR_insertR_self operations operation_id false
  · exact Registry.getR_removeR_self _ operation_id

/-- C5: `abort_operation` always returns `Ok`; when the identifier is
present its flag is set to signaled (`true`), when absent the registry is
left unchanged; and a repeated call with the same identifier is idempotent. -/
theorem c5_abort_operation_total_and_idempotent (r : Registry) (id : String) :
    (abort_operation r id).1 = Except.ok ()
    ∧ Registry.getR (abort_operation r id).2 id
        = (Registry.getR r id).map (fun _ => true)
    ∧ (abort_operation r id).2
        = (if (Registry.getR r id).isSome then Registry.setFlagR r id else r)
    ∧ abort_operation (abort_operation r id).2 id = abort_operation r id := by
  refine ⟨?_, ?_, ?_, ?_⟩
  · cases h : Registry.getR r id <;> simp [abort_operation, h]
  · cases h : Registry.getR r id <;>
      simp [abort_operation, h, Registry.getR_setFlagR]
  · cases h : Registry.getR r id <;> simp [abort_operation, h]
  · cases h : Registry.getR r id with
    | none => simp [abort_operation, h]
    | some b =>
      have h2 : Registry.getR (Registry.setFlagR r id) id = some true := by
        rw [Registry.getR_setFlagR, h]; rfl
      simp [abort_operation, h, h2, Registry.setFlagR_idem]

/-- Events emitted to the UI by the streaming relay of
`chat_completion_stream` (commands.rs lines 113-188): a content chunk event
(`stream-chunk-{id}`), the terminal done event (`stream-done-{id}`), or the
terminal error event (`stream-error-{id}`) with its message. -/
inductive StreamEvent where
  | chunk : String → StreamEvent
  | done : StreamEvent
  | error : String → StreamEvent
deriving DecidableEq, Repr

/-- Whether an event is terminal (done or error). -/
def StreamEvent.isTerminal : StreamEvent → Bool
  | StreamEvent.chunk _ => false
  | StreamEvent.done => true
  | StreamEvent.error _ => true

/-- Number of terminal events in an emitted event sequence. -/
def countTerminal (evs : List StreamEvent) : Nat :=
  (evs.filter StreamEvent.isTerminal).length

/-- Which branch of the connection-establishment `tokio::select!`
(commands.rs lines 122-143) resolves first: the stream future with its
result (a fragment sequence, each fragment either decoded or a decode
failure), the 30-second establishment timer, or the abort polling loop. -/
inductive EstOutcome where
  | resolved : Except String (List (Except String String)) → EstOutcome
  | estTimeout : EstOutcome
  | estAborted : EstOutcome

/-- Embedding of the fragment-consumption loop
(`while let Some(result) = stream.next().await { ... }`, commands.rs lines
149-172).  `abort_reads i` is the value the abort flag reads when checked
after the `i`-th fragment arrives; `emit_ok i` is whether emitting the
`i`-th chunk event succeeds.  Returns the events emitted inside the loop,
whether the loop early-returned on a decode failure (having already removed
the registry entry on that path), and the fragments left unconsumed. -/
def consume_stream (abort_reads : Nat → Bool) (emit_ok : Nat → Bool) :
    Nat → List (Except String String) →
    List StreamEvent × Bool × List (Except String String)
  | _, [] => ([], false, [])
  | i, f :: rest =>
    if abort_reads i then ([StreamEvent.done], false, rest)
    else
      match f with
      | Except.ok c =>
        if emit_ok i then
          let r := consume_stream abort_reads emit_ok (i + 1) rest
          (StreamEvent.chunk c :: r.1, r.2.1, r.2.2)
        else ([], false, rest)
      | Except.error e =>
        ([StreamEvent.error ("Stream error: " ++ e)], true, rest)

/-- Embedding of the spawned streaming task of `chat_completion_stream`
(commands.rs lines 113-188), from the establishment `select!` onward:
returns the full list of emitted events and the registry after the task
finishes. -/
def stream_task (est : EstOutcome) (abort_reads emit_ok : Nat → Bool)
    (operations : Registry) (session_id : String) :
    List StreamEvent × Registry :=
  match est with
  | EstOutcome.estTimeout =>
    ([StreamEvent.error "Request timeout: Failed to establish connection to AI provider"],
      Registry.removeR operations session_id)
  | EstOutcome.estAborted =>
    ([StreamEvent.done], Registry.removeR operations session_id)
  | EstOutcome.resolved (Except.error e) =>
    ([StreamEvent.error ("Failed to start stream: " ++ e)],
      Registry.removeR operations session_id)
  | EstOutcome.resolved (Except.ok frags) =>
    let r := consume_stream abort_reads emit_ok 0 frags
    if r.2.1 then (r.1, Registry.removeR operations session_id)
    else (r.1 ++ [StreamEvent.done], Registry.removeR operations session_id)

/-- Embedding of the whole `chat_completion_stream` command: register the
session identifier with a fresh unsignaled abort flag, then run the spawned
streaming task to completion. -/
def chat_completion_stream (operations : Registry) (session_id : String)
    (est : EstOutcome) (abort_reads emit_ok : Nat → Bool) :
    List StreamEvent × Registry :=
  stream_task est abort_reads emit_ok
    (Registry.insertR operations session_id false) session_id

/-- C3: counterexample to "exactly one terminal event is emitted on every
path".  When the abort flag is observed during fragment consumption with a
fragment pending, the code emits the done event twice — once at the `break`
inside the loop (commands.rs line 152) and once after the loop (line 175) —
although the registry entry is still removed and ends up absent. -/
theorem c3_double_done_on_abort_during_consumption :
    (chat_completion_stream [] "s"
        (EstOutcome.resolved (Except.ok [Except.ok "A"]))
        (fun _ => true) (fun _ => true)).1
      = [StreamEvent.done, StreamEvent.done]
    ∧ countTerminal
        (chat_completion_stream [] "s"
          (EstOutcome.resolved (Except.ok [Except.ok "A"]))
          (fun _ => true) (fun _ => true)).1 = 2
    ∧ Registry.getR
        (chat_completion_stream [] "s"
          (EstOutcome.resolved (Except.ok [Except.ok "A"]))
          (fun _ => true) (fun _ => true)).2 "s" = none := by
  refine ⟨rfl, rfl, ?_⟩
  rfl

/-- C6: a fragment sequence that yields decoded fragments A and B followed
by a decode failure makes the relay emit a content event for A, a content
event for B, then exactly one error event and never a done event, and the
fragments after the failure are left unconsumed. -/
theorem c6_decode_failure_is_terminal (A B e : String)
    (tail : List (Except String String)) (operations : Registry)
    (session_id : String) :
    consume_stream (fun _ => false) (fun _ => true) 0
        (Except.ok A :: Except.ok B :: Except.error e :: tail)
      = ([StreamEvent.chunk A, StreamEvent.chunk B,
          StreamEvent.error ("Stream error: " ++ e)], true, tail)
    ∧ (stream_task
          (EstOutcome.resolved
            (Except.ok (Except.ok A :: Except.ok B :: Except.error e :: tail)))
          (fun _ => false) (fun _ => true) operations session_id).1
      = [StreamEvent.chunk A, StreamEvent.chunk B,
          StreamEvent.error ("Stream error: " ++ e)]
    ∧ countTerminal
        [StreamEvent.chunk A, StreamEvent.chunk B,
          StreamEvent.error ("Stream error: " ++ e)] = 1
    ∧ StreamEvent.done ∉
        [StreamEvent.chunk A, StreamEvent.chunk B,
          StreamEvent.error ("Stream error: " ++ e)] := by
  refine ⟨rfl, rfl, rfl, ?_⟩
  simp

/-- Configuration for audio recording (audio/types.rs lines 4-17). -/
structure AudioRecordingConfig where
  sample_rate : Nat
  channels : Nat
  echo_cancellation : Bool
  noise_suppression : Bool
  auto_gain_control : Bool
deriving DecidableEq, Repr

/-- Information about an active recording session
(audio/types.rs lines 32-42). -/
structure AudioRecordingSession where
  session_id : String
  started_at : Nat
  sample_rate : Nat
  channels : Nat
deriving DecidableEq, Repr

/-- Result of a completed recording (audio/types.rs lines 45-55).  The WAV
byte container produced by the hound crate is abstracted to the list of
16-bit sample values it carries. -/
structure AudioRecordingResult where
  session_id : String
  duration_ms : Nat
  audio_data : List Int
  sample_rate : Nat
deriving DecidableEq, Repr

/-- Error taxonomy of the recorder (audio/types.rs lines 58-72). -/
inductive AudioRecordingError where
  | NoInputDevice
  | StreamInitFailed : String → AudioRecordingError
  | NoActiveSession
  | SessionMismatch
  | ProcessingError : String → AudioRecordingError
  | EncodingError : String → AudioRecordingError
deriving DecidableEq, Repr

/-- One device-supported input configuration as seen through cpal's
`SupportedStreamConfigRange`: a channel count and an inclusive sample-rate
range. -/
structure SupportedStreamConfig where
  channels : Nat
  min_sample_rate : Nat
  max_sample_rate : Nat
deriving DecidableEq, Repr

/-- The three-tier supported-configuration selection of
`start_recording_internal` (recorder.rs lines 174-199): first a config whose
channel count equals the requested one and whose sample-rate range contains
the requested rate, failing that any single-channel config, failing that any
config at all (`.next()`, i.e. the first of the list). -/
def find_supported_config (config : AudioRecordingConfig)
    (supported : List SupportedStreamConfig) : Option SupportedStreamConfig :=
  (List.find? (fun c => c.channels == config.channels
      && decide (c.min_sample_rate ≤ config.sample_rate)
      && decide (config.sample_rate ≤ c.max_sample_rate)) supported).orElse
    (fun _ =>
      (List.find? (fun c => c.channels == 1) supported).orElse
        (fun _ => supported.head?))

/-- Restatement of the spec's words for the three-tier fallback, written
independently as a cascade of matches, to be compared with
`find_supported_config`. -/
def three_tier_selection (config : AudioRecordingConfig)
    (supported : List SupportedStreamConfig) : Option SupportedStreamConfig :=
  match List.find? (fun c => c.channels == config.channels
      && decide (c.min_sample_rate ≤ config.sample_rate)
      && decide (config.sample_rate ≤ c.max_sample_rate)) supported with
  | some c => some c
  | none =>
    match List.find? (fun c => c.channels == 1) supported with
    | some c => some c
    | none => supported.head?

/-- The concrete sample rate chosen once a supported configuration is picked
(recorder.rs lines 201-207): the requested rate when the range contains it,
otherwise the range's maximum capped at 48000. -/
def resolve_sample_rate (config : AudioRecordingConfig)
    (sc : SupportedStreamConfig) : Nat :=
  if sc.min_sample_rate ≤ config.sample_rate
      ∧ config.sample_rate ≤ sc.max_sample_rate then
    config.sample_rate
  else
    min sc.max_sample_rate 48000

/-- State of a `Mutex<Vec<f32>>`: whether a previous panic poisoned it, and
the samples it holds.  A poisoned mutex still holds its data. -/
structure MutexState (α : Type) where
  poisoned : Bool
  value : α
deriving DecidableEq, Repr

/-- Lock acquisition with poison recovery, as written at recorder.rs lines
250-256 and 335-341: `Ok(guard)` yields the guard, `Err(poisoned)` is
recovered through `poisoned.into_inner()` — both give the stored value. -/
def lock_recover {α : Type} (m : MutexState α) : α :=
  match m.poisoned with
  | false => m.value
  | true => m.value

/-- The mono downmix of the capture callback (recorder.rs lines 279-283):
each `chunks(channels)` block contributes one sample, the block's sum
divided by the full channel count — also for a final block shorter than
`channels`. -/
def downmix_frames (channels : Nat) : List ℚ → List ℚ
  | [] => []
  | x :: xs =>
    ((x :: xs).take channels).sum / (channels : ℚ)
      :: downmix_frames channels (xs.drop (channels - 1))
termination_by l => l.length
decreasing_by
  simp only [List.length_drop, List.length_cons]
  omega

/-- Per-frame true averages, restating the spec's words ("the per-frame
averages of the c channels"): each frame contributes its sum divided by the
number of samples actually in the frame. -/
def per_frame_average (channels : Nat) : List ℚ → List ℚ
  | [] => []
  | x :: xs =>
    ((x :: xs).take channels).sum / ((((x :: xs).take channels).length : ℚ))
      :: per_frame_average channels (xs.drop (channels - 1))
termination_by l => l.length
decreasing_by
  simp only [List.length_drop, List.length_cons]
  omega

/-- What one callback invocation appends to the samples buffer
(recorder.rs lines 278-287): the mono downmix when more than one channel,
the raw block otherwise. -/
def capture_block_append (channels : Nat) (buffer data : List ℚ) : List ℚ :=
  if 1 < channels then buffer ++ downmix_frames channels data
  else buffer ++ data

/-- The capture callback's effect on the shared samples mutex
(recorder.rs lines 248-287): acquire the lock recovering from poisoning,
then append the (possibly downmixed) block.  The level-meter event emission
is I/O and not modelled. -/
def capture_callback (samples : MutexState (List ℚ)) (channels : Nat)
    (data : List ℚ) : MutexState (List ℚ) :=
  { poisoned := samples.poisoned,
    value := capture_block_append channels (lock_recover samples) data }

/-- Conversion of one f32 sample to a 16-bit integer (recorder.rs line 400):
scale by 32767, clamp to [-32768, 32767], truncate toward zero. -/
def sample_to_i16 (q : ℚ) : Int :=
  let c : ℚ := if q * 32767 < -32768 then -32768
    else if (32767 : ℚ) < q * 32767 then 32767
    else q * 32767
  if 0 ≤ c then Rat.floor c else -Rat.floor (-c)

/-- WAV encoding (recorder.rs lines 381-412), abstracting the hound
container bytes to the encoded 16-bit samples; hound's own write errors are
I/O and not modelled, so encoding always succeeds. -/
def encode_wav (samples : List ℚ) (_sample_rate : Nat) (_channels : Nat) :
    Except AudioRecordingError (List Int) :=
  Except.ok (samples.map sample_to_i16)

/-- Internal state for an active recording, owned by the audio thread
(recorder.rs lines 105-110).  The cpal stream handle is opaque and modelled
by a number; `app_handle` records whether a Tauri handle is present. -/
structure RecordingState where
  session : AudioRecordingSession
  samples : MutexState (List ℚ)
  stream : Nat
  app_handle : Bool
deriving DecidableEq, Repr

/-- Environment a `StartRecording` runs against: whether a default input
device exists, its supported configurations, the outcome of
`build_input_stream` and `play()` (`none` = success, `some e` = the error's
text), and the fresh identifiers the session is built from. -/
structure AudioEnv where
  has_input_device : Bool
  supported : List SupportedStreamConfig
  build_stream_error : Option String
  play_error : Option String
  fresh_uuid : String
  now_ms : Nat
  stream_handle : Nat
deriving DecidableEq, Repr

/-- Embedding of `start_recording_internal` (recorder.rs lines 154-309):
fail if a recording is active, otherwise negotiate a configuration through
the three-tier fallback, resolve the sample rate, build and start the
stream, and install the new session with an empty samples buffer. -/
def start_recording_internal (active : Option RecordingState)
    (config : AudioRecordingConfig) (app_handle : Bool) (env : AudioEnv) :
    Except AudioRecordingError AudioRecordingSession × Option RecordingState :=
  if active.isSome then
    (Except.error (AudioRecordingError.StreamInitFailed
      "Recording already in progress"), active)
  else if !env.has_input_device then
    (Except.error AudioRecordingError.NoInputDevice, active)
  else
    match find_supported_config config env.supported with
    | none =>
      (Except.error (AudioRecordingError.StreamInitFailed
        "No suitable audio config found"), active)
    | some sc =>
      let sample_rate := resolve_sample_rate config sc
      let session : AudioRecordingSession :=
        { session_id := "rec-" ++ env.fresh_uuid
          started_at := env.now_ms
          sample_rate := sample_rate
          channels := sc.channels }
      match env.build_stream_error with
      | some e =>
        (Except.error (AudioRecordingError.StreamInitFailed e), active)
      | none =>
        match env.play_error with
        | some e =>
          (Except.error (AudioRecordingError.StreamInitFailed e), active)
        | none =>
          (Except.ok session,
            some { session := session
                   samples := { poisoned := false, value := [] }
                   stream := env.stream_handle
                   app_handle := app_handle })

/-- Embedding of `stop_recording_internal` (recorder.rs lines 311-361):
take the active state (`NoActiveSession` if none); on identifier mismatch
put the very same state back and fail with `SessionMismatch`; on match drop
the stream, read the samples out of the mutex recovering from poisoning,
and encode them. -/
def stop_recording_internal (active : Option RecordingState)
    (session_id : String) (now_ms : Nat) :
    Except AudioRecordingError AudioRecordingResult × Option RecordingState :=
  match active with
  | none => (Except.error AudioRecordingError.NoActiveSession, none)
  | some state =>
    if state.session.session_id != session_id then
      (Except.error AudioRecordingError.SessionMismatch, some state)
    else
      let samples := lock_recover state.samples
      let duration_ms := now_ms - state.session.started_at
      match encode_wav samples state.session.sample_rate 1 with
      | Except.error e => (Except.error e, none)
      | Except.ok audio_data =>
        (Except.ok { session_id := session_id
                     duration_ms := duration_ms
                     audio_data := audio_data
                     sample_rate := state.session.sample_rate }, none)

/-- Embedding of `cancel_recording_internal` (recorder.rs lines 363-378):
same matching rules as stop, but the buffered samples are discarded. -/
def cancel_recording_internal (active : Option RecordingState)
    (session_id : String) :
    Except AudioRecordingError Unit × Option RecordingState :=
  match active with
  | none => (Except.error AudioRecordingError.NoActiveSession, none)
  | some state =>
    if state.session.session_id != session_id then
      (Except.error AudioRecordingError.SessionMismatch, some state)
    else
      (Except.ok (), none)

/-- Commands processed by the audio worker loop (recorder.rs lines 10-28),
with the environment each `StartRecording` runs against and the clock a
`StopRecording` reads. -/
inductive AudioCommand where
  | start : AudioRecordingConfig → Bool → AudioEnv → AudioCommand
  | stop : String → Nat → AudioCommand
  | cancel : String → AudioCommand
  | force_reset : AudioCommand

/-- One iteration of the audio worker loop (`audio_thread_main`,
recorder.rs lines 113-152), projected onto the `active_recording` state the
loop threads through; the per-command response goes back through its reply
channel and is recovered by applying the corresponding `*_internal`
function. -/
def audio_step (active : Option RecordingState) :
    AudioCommand → Option RecordingState
  | AudioCommand.start config app env =>
    (start_recording_internal active config app env).2
  | AudioCommand.stop sid now => (stop_recording_internal active sid now).2
  | AudioCommand.cancel sid => (cancel_recording_internal active sid).2
  | AudioCommand.force_reset => none

/-- The audio worker loop run over a whole command sequence, starting from
`active_recording = None` (recorder.rs line 114). -/
def audio_thread_main (cmds : List AudioCommand) : Option RecordingState :=
  cmds.foldl audio_step none

/-- Number of active capture sessions held by the worker. -/
def active_session_count (active : Option RecordingState) : Nat :=
  match active with
  | none => 0
  | some _ => 1

theorem option_orElse_isNone {α : Type} (a : Option α) (f : Unit → Option α) :
    (a.orElse f).isNone = (a.isNone && (f ()).isNone) := by
  cases a <;> rfl

theorem downmix_frames_nil (c : Nat) : downmix_frames c [] = [] := by
  simp [downmix_frames]

theorem downmix_frames_cons (c : Nat) (x : ℚ) (xs : List ℚ) :
    downmix_frames c (x :: xs)
      = ((x :: xs).take c).sum / (c : ℚ)
          :: downmix_frames c (xs.drop (c - 1)) := by
  simp only [downmix_frames]

theorem per_frame_average_nil (c : Nat) : per_frame_average c [] = [] := by
  simp [per_frame_average]

theorem per_frame_average_cons (c : Nat) (x : ℚ) (xs : List ℚ) :
    per_frame_average c (x :: xs)
      = ((x :: xs).take c).sum / (((x :: xs).take c).length : ℚ)
          :: per_frame_average c (xs.drop (c - 1)) := by
  simp only [per_frame_average]

theorem downmix_frames_frame_append (c : Nat) (frame rest : List ℚ)
    (hc : 0 < c) (hlen : frame.length = c) :
    downmix_frames c (frame ++ rest)
      = frame.sum / (c : ℚ) :: downmix_frames c rest := by
  cases frame with
  | nil => simp at hlen; omega
  | cons y ys =>
    rw [show (y :: ys) ++ rest = y :: (ys ++ rest) from rfl, downmix_frames_cons]
    have ht : (y :: (ys ++ rest)).take c = y :: ys := by
      rw [show y :: (ys ++ rest) = (y :: ys) ++ rest from rfl, List.take_left' hlen]
    have hd : (ys ++ rest).drop (c - 1) = rest := by
      apply List.drop_left'
      simp at hlen
      omega
    rw [ht, hd]

theorem per_frame_average_frame_append (c : Nat) (frame rest : List ℚ)
    (hc : 0 < c) (hlen : frame.length = c) :
    per_frame_average c (frame ++ rest)
      = frame.sum / (c : ℚ) :: per_frame_average c rest := by
  cases frame with
  | nil => simp at hlen; omega
  | cons y ys =>
    rw [show (y :: ys) ++ rest = y :: (ys ++ rest) from rfl, per_frame_average_cons]
    have ht : (y :: (ys ++ rest)).take c = y :: ys := by
      rw [show y :: (ys ++ rest) = (y :: ys) ++ rest from rfl, List.take_left' hlen]
    have hd : (ys ++ rest).drop (c - 1) = rest := by
      apply List.drop_left'
      simp at hlen
      omega
    rw [ht, hd, hlen]

theorem downmix_frames_short (c : Nat) (rem : List ℚ)
    (h0 : 0 < rem.length) (hle : rem.length ≤ c) :
    downmix_frames c rem = [rem.sum / (c : ℚ)] := by
  cases rem with
  | nil => simp at h0
  | cons z zs =>
    rw [downmix_frames_cons]
    have ht : (z :: zs).take c = z :: zs := List.take_of_length_le hle
    have hd : zs.drop (c - 1) = [] := by
      apply List.drop_eq_nil_of_le
      simp at hle ⊢
      omega
    rw [ht, hd, downmix_frames_nil]

theorem per_frame_average_short (c : Nat) (rem : List ℚ)
    (h0 : 0 < rem.length) (hle : rem.length ≤ c) :
    per_frame_average c rem = [rem.sum / (rem.length : ℚ)] := by
  cases rem with
  | nil => simp at h0
  | cons z zs =>
    rw [per_frame_average_cons]
    have ht : (z :: zs).take c = z :: zs := List.take_of_length_le hle
    have hd : zs.drop (c - 1) = [] := by
      apply List.drop_eq_nil_of_le
      simp at hle ⊢
      omega
    rw [ht, hd, per_frame_average_nil]

theorem downmix_frames_eq_average_aux (c : Nat) (hc : 0 < c) :
    ∀ (n : Nat) (data : List ℚ), data.length = n → c ∣ n →
      downmix_frames c data = per_frame_average c data := by
  intro n
  induction n using Nat.strong_induction_on with
  | _ n ih =>
    intro data hlen hdvd
    cases data with
    | nil => rw [downmix_frames_nil, per_frame_average_nil]
    | cons x xs =>
      have hpos : 0 < n := by rw [← hlen]; simp
      have hcle : c ≤ (x :: xs).length := by
        rw [hlen]; exact Nat.le_of_dvd hpos hdvd
      have hflen : ((x :: xs).take c).length = c := by
        rw [List.length_take]; omega
      have hsplit : (x :: xs) = ((x :: xs).take c) ++ ((x :: xs).drop c) :=
        (List.take_append_drop c (x :: xs)).symm
      have hrlen : ((x :: xs).drop c).length = n - c := by
        rw [List.length_drop, hlen]
      rw [hsplit, downmix_frames_frame_append c _ _ hc hflen,
        per_frame_average_frame_append c _ _ hc hflen]
      congr 1
      exact ih (n - c) (by omega) _ hrlen (Nat.dvd_sub' hdvd dvd_rfl)

theorem downmix_frames_append_aux (c : Nat) (hc : 0 < c) (rem : List ℚ) :
    ∀ (n : Nat) (pre : List ℚ), pre.length = n → c ∣ n →
      downmix_frames c (pre ++ rem)
          = downmix_frames c pre ++ downmix_frames c rem
      ∧ per_frame_average c (pre ++ rem)
          = per_frame_average c pre ++ per_frame_average c rem := by
  intro n
  induction n using Nat.strong_induction_on with
  | _ n ih =>
    intro pre hlen hdvd
    cases pre with
    | nil => simp [downmix_frames_nil, per_frame_average_nil]
    | cons x xs =>
      have hpos : 0 < n := by rw [← hlen]; simp
      have hcle : c ≤ (x :: xs).length := by
        rw [hlen]; exact Nat.le_of_dvd hpos hdvd
      have hflen : ((x :: xs).take c).length = c := by
        rw [List.length_take]; omega
      have hsplit : (x :: xs) = ((x :: xs).take c) ++ ((x :: xs).drop c) :=
        (List.take_append_drop c (x :: xs)).symm
      have hrlen : ((x :: xs).drop c).length = n - c := by
        rw [List.length_drop, hlen]
      have hrec := ih (n - c) (by omega) ((x :: xs).drop c) hrlen
        (Nat.dvd_sub' hdvd dvd_rfl)
      constructor
      · rw [hsplit, List.append_assoc,
          downmix_frames_frame_append c _ _ hc hflen,
          downmix_frames_frame_append c _ _ hc hflen, hrec.1,
          List.cons_append]
      · rw [hsplit, List.append_assoc,
          per_frame_average_frame_append c _ _ hc hflen,
          per_frame_average_frame_append c _ _ hc hflen, hrec.2,
          List.cons_append]

/-- C2: over every sequence of StartRecording / StopRecording /
CancelRecording / ForceReset commands the worker loop holds at most one
active capture session, and a StartRecording issued while a session is
active returns the "Recording already in progress" error and leaves the
active session — identifier, buffer and stream — exactly as it was. -/
theorem c2_at_most_one_session_and_busy_start_rejected
    (cmds : List AudioCommand) (s : RecordingState)
    (config : AudioRecordingConfig) (app : Bool) (env : AudioEnv) :
    active_session_count (audio_thread_main cmds) ≤ 1
    ∧ start_recording_internal (some s) config app env
        = (Except.error (AudioRecordingError.StreamInitFailed
            "Recording already in progress"), some s) := by
  constructor
  · cases audio_thread_main cmds <;> simp [active_session_count]
  · rfl

/-- C4: StopRecording and CancelRecording with no active session fail with
NoActiveSession; with an active session whose identifier differs from the
supplied one they fail with SessionMismatch and the very same session record
(samples mutex and stream handle included) is put back, not discarded. -/
theorem c4_stop_cancel_mismatch_restores_state (s : RecordingState)
    (sid : String) (now : Nat)
    (h : (s.session.session_id == sid) = false) :
    stop_recording_internal none sid now
        = (Except.error AudioRecordingError.NoActiveSession, none)
    ∧ cancel_recording_internal none sid
        = (Except.error AudioRecordingError.NoActiveSession, none)
    ∧ stop_recording_internal (some s) sid now
        = (Except.error AudioRecordingError.SessionMismatch, some s)
    ∧ cancel_recording_internal (some s) sid
        = (Except.error AudioRecordingError.SessionMismatch, some s) := by
  have hb : (s.session.session_id != sid) = true := by simp [bne, h]
  refine ⟨rfl, rfl, ?_, ?_⟩
  · simp [stop_recording_internal, hb]
  · simp [cancel_recording_internal, hb]

/-- A concrete recording state used to instantiate the mismatch paths. -/
def demo_recording_state : RecordingState :=
  { session := { session_id := "rec-1", started_at := 0,
                 sample_rate := 48000, channels := 1 },
    samples := { poisoned := false, value := [] },
    stream := 0,
    app_handle := false }

/-- Witness for C4: a stop and a cancel carrying the wrong identifier leave
the concrete active session in place and fail with SessionMismatch. -/
theorem c4_witness :
    (demo_recording_state.session.session_id == "other") = false
    ∧ stop_recording_internal (some demo_recording_state) "other" 5
        = (Except.error AudioRecordingError.SessionMismatch,
            some demo_recording_state)
    ∧ cancel_recording_internal (some demo_recording_state) "other"
        = (Except.error AudioRecordingError.SessionMismatch,
            some demo_recording_state) :=
  ⟨by decide,
    (c4_stop_cancel_mismatch_restores_state demo_recording_state "other" 5
      (by decide)).2.2.1,
    (c4_stop_cancel_mismatch_restores_state demo_recording_state "other" 5
      (by decide)).2.2.2⟩

/-- C7: both the capture callback (writer) and the stop path (reader)
recover the full samples buffer from a poisoned mutex guard: the callback
appends the downmixed block to the previous contents whatever the poison
bit, a poisoned lock still yields the whole buffer, and a stop addressed to
the active session succeeds with all buffered samples encoded regardless of
poisoning. -/
theorem c7_poisoned_guard_loses_no_samples (p : Bool) (buf data : List ℚ)
    (channels : Nat) (s : RecordingState) (now : Nat) :
    capture_callback { poisoned := p, value := buf } channels data
        = { poisoned := p, value := capture_block_append channels buf data }
    ∧ lock_recover ({ poisoned := true, value := buf } : MutexState (List ℚ))
        = buf
    ∧ (stop_recording_internal (some s) s.session.session_id now).1
        = Except.ok { session_id := s.session.session_id
                      duration_ms := now - s.session.started_at
                      audio_data := (lock_recover s.samples).map sample_to_i16
                      sample_rate := s.session.sample_rate } := by
  refine ⟨?_, rfl, ?_⟩
  · cases p <;> rfl
  · simp [stop_recording_internal, bne_self_eq_false, encode_wav]

/-- C8: StartRecording selects the device configuration by the three-tier
fallback — exact channel match with the requested rate inside the supported
range, else any single-channel configuration, else any configuration at
all — and the selection comes up empty exactly when the device offers no
configuration whatsoever. -/
theorem c8_three_tier_config_fallback (config : AudioRecordingConfig)
    (supported : List SupportedStreamConfig) :
    find_supported_config config supported
        = three_tier_selection config supported
    ∧ (find_supported_config config supported).isNone
        = supported.isEmpty := by
  constructor
  · unfold find_supported_config three_tier_selection
    generalize (List.find? (fun c => c.channels == config.channels
      && decide (c.min_sample_rate ≤ config.sample_rate)
      && decide (config.sample_rate ≤ c.max_sample_rate)) supported) = a
    generalize (List.find? (fun c => c.channels == 1) supported) = b
    cases a <;> cases b <;> rfl
  · unfold find_supported_config
    simp only [option_orElse_isNone]
    cases supported with
    | nil => rfl
    | cons c cs => simp

/-- C9: with more than one channel the capture callback appends the
per-frame channel averages to the buffer; in particular the 2-channel
interleaved block [1, -1, 1/2, -1/2] appends exactly the mono samples
[0, 0]. -/
theorem c9_downmix_appends_per_frame_averages (channels : Nat)
    (buffer data : List ℚ) (hc : 1 < channels)
    (hd : channels ∣ data.length) :
    capture_block_append channels buffer data
        = buffer ++ per_frame_average channels data
    ∧ capture_block_append 2 [] [1, -1, 1/2, -1/2] = [0, 0] := by
  constructor
  · rw [capture_block_append, if_pos hc,
      downmix_frames_eq_average_aux channels (by omega) data.length data rfl hd]
  · rw [capture_block_append, if_pos (by omega : (1 : Nat) < 2),
      show ([1, -1, 1/2, -1/2] : List ℚ) = [1, -1] ++ [1/2, -1/2] from rfl,
      downmix_frames_frame_append 2 [1, -1] [1/2, -1/2] (by omega) (by decide),
      show ([1/2, -1/2] : List ℚ) = [1/2, -1/2] ++ ([] : List ℚ) from
        (List.append_nil _).symm,
      downmix_frames_frame_append 2 [1/2, -1/2] [] (by omega) (by decide),
      downmix_frames_nil]
    norm_num

/-- Witness for C9 at channels = 2 on the spec's concrete block. -/
theorem c9_witness :
    (1 < 2 ∧ 2 ∣ ([1, -1, 1/2, -1/2] : List ℚ).length)
    ∧ capture_block_append 2 [] [1, -1, 1/2, -1/2]
        = [] ++ per_frame_average 2 [1, -1, 1/2, -1/2] :=
  ⟨⟨by omega, by decide⟩,
    (c9_downmix_appends_per_frame_averages 2 [] [1, -1, 1/2, -1/2]
      (by omega) (by decide)).1⟩

/-- C10: when the block's length is not a multiple of the channel count the
final short frame still yields one mono sample, its sum divided by the full
channel count, while a true per-frame average would divide by the number of
samples actually present. -/
theorem c10_final_short_frame_divided_by_channel_count (channels : Nat)
    (pre rem : List ℚ) (hc : 1 < channels) (hpre : channels ∣ pre.length)
    (h0 : 0 < rem.length) (hlt : rem.length < channels) :
    downmix_frames channels (pre ++ rem)
        = downmix_frames channels pre ++ [rem.sum / (channels : ℚ)]
    ∧ per_frame_average channels (pre ++ rem)
        = per_frame_average channels pre ++ [rem.sum / (rem.length : ℚ)] := by
  have h := downmix_frames_append_aux channels (by omega) rem pre.length pre
    rfl hpre
  constructor
  · rw [h.1, downmix_frames_short channels rem h0 (by omega)]
  · rw [h.2, per_frame_average_short channels rem h0 (by omega)]

/-- Witness for C10 at channels = 2 with one full frame then one leftover
sample. -/
theorem c10_witness :
    (1 < 2 ∧ 2 ∣ ([1, 1] : List ℚ).length ∧ 0 < ([1] : List ℚ).length
        ∧ ([1] : List ℚ).length < 2)
    ∧ downmix_frames 2 ([1, 1] ++ [1])
        = downmix_frames 2 [1, 1] ++ [([1] : List ℚ).sum / (2 : ℚ)] :=
  ⟨⟨by omega, by decide, by decide, by decide⟩,
    (c10_final_short_frame_divided_by_channel_count 2 [1, 1] [1]
      (by omega) (by decide) (by decide) (by decide)).1⟩
